import Mathlib

/-!
Verification of the incremental dimensional transformation pipeline in
`Allianz_script.py` (functions `validate_data`, `encrypt_data`,
`filter_existing_data`, `extract_customer_dimension`,
`extract_product_dimension`, `create_sales_df`, `upload_data`, and the key
setup in `main`).

DataFrames are shallowly embedded as lists of association-list rows keyed by
column name, with cell values modelled as strings (the pipeline compares and
concatenates cells only after `astype(str)`, so string cells are faithful to
every comparison the code performs; a missing cell reads as the empty
string, standing for pandas `None`/`NaN` produced by unmatched left joins
and short splits).  The quality gate `validate_data`, which does rational
arithmetic on `year_of_birth` and `premium`, is embedded separately over a
typed record with `ℚ` fields and `Option` for nullable cells.  The global
surrogate-key counters become explicit state passed in and returned, and the
relational store becomes an association list from table name to table
contents; pandas `KeyError` and Python `raise` become `Except.error`.
-/

set_option maxHeartbeats 1000000
set_option maxRecDepth 100000

deriving instance DecidableEq for Except

namespace Allianz

/-- A DataFrame row: an association list from column name to cell text. -/
abbrev Row := List (String × String)

/-- Lookup in an association list (first entry with the given key). -/
def alookup {α : Type} : List (String × α) → String → Option α
  | [], _ => none
  | p :: ps, k => if p.1 = k then some p.2 else alookup ps k

/-- Key membership in an association list. -/
def ahas {α : Type} (l : List (String × α)) (k : String) : Bool :=
  l.any (fun p => decide (p.1 = k))

/-- Column assignment `l[k] = v`: update the entry in place when the key is
present (pandas overwrites an existing column), otherwise append it at the
end (pandas adds a new column last). -/
def aset {α : Type} (l : List (String × α)) (k : String) (v : α) :
    List (String × α) :=
  if ahas l k then
    l.map (fun p => if p.1 = k then (k, v) else p)
  else l ++ [(k, v)]

/-- Drop the entries with the given key (`drop(columns=[k])`). -/
def adrop {α : Type} (l : List (String × α)) (k : String) :
    List (String × α) :=
  l.filter (fun p => decide (p.1 ≠ k))

/-- Reading a cell: a missing column reads as the empty string, which stands
for pandas `None`/`NaN`. -/
def Row.get (r : Row) (c : String) : String := (alookup r c).getD ""

/-- Setting a cell of a row. -/
def Row.set (r : Row) (c v : String) : Row := aset r c v

/-- Removing a cell of a row. -/
def Row.drop (r : Row) (c : String) : Row := adrop r c

/-- A DataFrame: a column list plus rows. -/
structure DFrame where
  cols : List String
  rows : List Row
deriving DecidableEq

/-- The empty DataFrame. -/
def DFrame.empty : DFrame := { cols := [], rows := [] }

section ALookupLemmas

variable {α : Type}

theorem alookup_map_update (l : List (String × α)) (k : String) (v : α)
    (h : ahas l k = true) :
    alookup (l.map (fun p => if p.1 = k then (k, v) else p)) k = some v := by
  induction l with
  | nil => simp [ahas] at h
  | cons p ps ih =>
    by_cases hp : p.1 = k
    · simp [alookup, hp]
    · simp only [ahas, List.any_cons, decide_eq_true_eq, hp, decide_False,
        Bool.false_or] at h
      simp [alookup, hp, ih h]

theorem alookup_map_update_ne (l : List (String × α)) (k k' : String) (v : α)
    (h : k' ≠ k) :
    alookup (l.map (fun p => if p.1 = k then (k, v) else p)) k' =
      alookup l k' := by
  induction l with
  | nil => rfl
  | cons p ps ih =>
    by_cases hp : p.1 = k
    · have hk : k ≠ k' := fun hkk => h hkk.symm
      have hpk' : p.1 ≠ k' := by rw [hp]; exact hk
      simp [alookup, hp, hk, hpk', ih]
    · rw [List.map_cons, if_neg hp]
      by_cases hq : p.1 = k'
      · simp [alookup, hq]
      · simp [alookup, hq, ih]

theorem alookup_append_single_ne (l : List (String × α)) (k k' : String)
    (v : α) (h : k' ≠ k) :
    alookup (l ++ [(k, v)]) k' = alookup l k' := by
  induction l with
  | nil =>
    have hk : k ≠ k' := fun hkk => h hkk.symm
    simp [alookup, hk]
  | cons p ps ih =>
    by_cases hp : p.1 = k'
    · simp [alookup, hp]
    · simp [alookup, hp, ih]

theorem alookup_append_single_self (l : List (String × α)) (k : String)
    (v : α) (h : ahas l k = false) :
    alookup (l ++ [(k, v)]) k = some v := by
  induction l with
  | nil => simp [alookup]
  | cons p ps ih =>
    simp only [ahas, List.any_cons, Bool.or_eq_false_iff,
      decide_eq_false_iff_not] at h
    have h2 : ahas ps k = false := by
      simp only [ahas]
      simpa using h.2
    simp [alookup, h.1, ih h2]

theorem alookup_aset_self (l : List (String × α)) (k : String) (v : α) :
    alookup (aset l k v) k = some v := by
  unfold aset
  by_cases h : ahas l k
  · simp only [h, if_true]
    exact alookup_map_update l k v h
  · simp only [Bool.not_eq_true] at h
    simp only [h, Bool.false_eq_true, if_false]
    exact alookup_append_single_self l k v h

theorem alookup_aset_ne (l : List (String × α)) (k k' : String) (v : α)
    (h : k' ≠ k) : alookup (aset l k v) k' = alookup l k' := by
  unfold aset
  by_cases hany : ahas l k
  · simp only [hany, if_true]
    exact alookup_map_update_ne l k k' v h
  · simp only [Bool.not_eq_true] at hany
    simp only [hany, Bool.false_eq_true, if_false]
    exact alookup_append_single_ne l k k' v h

theorem alookup_adrop_ne (l : List (String × α)) (k k' : String)
    (h : k' ≠ k) : alookup (adrop l k) k' = alookup l k' := by
  induction l with
  | nil => rfl
  | cons p ps ih =>
    by_cases hp : p.1 = k
    · have hpk' : p.1 ≠ k' := by rw [hp]; exact fun hkk => h hkk.symm
      have hstep : adrop (p :: ps) k = adrop ps k := by
        simp [adrop, List.filter_cons, hp]
      rw [hstep, ih]
      simp [alookup, hpk']
    · have hstep : adrop (p :: ps) k = p :: adrop ps k := by
        simp [adrop, List.filter_cons, hp]
      rw [hstep]
      by_cases hq : p.1 = k'
      · simp [alookup, hq]
      · simp [alookup, hq, ih]

end ALookupLemmas

theorem Row.get_set_self (r : Row) (c v : String) :
    Row.get (Row.set r c v) c = v := by
  simp [Row.get, Row.set, alookup_aset_self]

theorem Row.get_set_ne (r : Row) (c c' v : String) (h : c' ≠ c) :
    Row.get (Row.set r c v) c' = Row.get r c' := by
  simp [Row.get, Row.set, alookup_aset_ne r c c' v h]

theorem Row.get_drop_ne (r : Row) (c c' : String) (h : c' ≠ c) :
    Row.get (Row.drop r c) c' = Row.get r c' := by
  simp [Row.get, Row.drop, alookup_adrop_ne r c c' h]

/-- The relational store: each table name maps to its current contents.
`inspect(connection).has_table` is key membership, `SELECT`/`read_sql` is
lookup, and `to_sql(if_exists=append)` appends rows, creating the table on
first write. -/
abbrev Store := List (String × DFrame)

/-- `inspector.has_table(table_name)`. -/
def hasTable (s : Store) (t : String) : Bool := (alookup s t).isSome

/-- The contents of a table (the empty frame when absent; only read behind a
`hasTable` check, mirroring the code). -/
def getTable (s : Store) (t : String) : DFrame :=
  (alookup s t).getD DFrame.empty

/-- `df.to_sql(name=t, if_exists=append)`: append the rows to the existing
table, or create the table from the uploaded frame when it is new. -/
def appendTable (s : Store) (t : String) (df : DFrame) : Store :=
  match alookup s t with
  | some old => aset s t { cols := old.cols, rows := old.rows ++ df.rows }
  | none => s ++ [(t, df)]

/-- The business-key columns per target table (`filter_existing_data`,
lines 108-116); an unknown table name raises `ValueError`. -/
def compositeKeyColumns (tableName : String) : Option (List String) :=
  if tableName = "dim_customer" then some ["merge_key"]
  else if tableName = "dim_product" then some ["merge_key"]
  else if tableName = "sales" then
    some ["customer_id", "product_id", "sale_date", "quantity"]
  else none

/-- `df[kcols].astype(str).agg(join with dash, axis=1)`: the dash-joined
composite key of one row (cells are already text in this embedding). -/
def joinKey (kcols : List String) (r : Row) : String :=
  String.intercalate "-" (kcols.map (fun c => Row.get r c))

/-- `df[composite_key] = ...`: the in-place mutation that adds the
composite-key column to the caller's frame. -/
def addCompositeKey (df : DFrame) (kcols : List String) : DFrame :=
  { cols := if df.cols.contains "composite_key" then df.cols
            else df.cols ++ ["composite_key"],
    rows := df.rows.map (fun r => Row.set r "composite_key" (joinKey kcols r)) }

/-- `df.drop(columns=[c])` on a whole frame (not in place). -/
def dropColF (df : DFrame) (c : String) : DFrame :=
  { cols := df.cols.filter (fun x => decide (x ≠ c)),
    rows := df.rows.map (fun r => Row.drop r c) }

/-- `filter_existing_data(df, connection, table_name)` (lines 99-133).
Returns the filtered frame together with the post-call state of the caller's
candidate frame (the function mutates `df` by adding `composite_key`).
A column selection on a frame that lacks the column is a pandas/SQL
`KeyError`, modelled as `Except.error`. -/
def filter_existing_data (df : DFrame) (store : Store) (tableName : String) :
    Except String (DFrame × DFrame) :=
  match alookup store tableName with
  | none => .ok (df, df)
  | some tdf =>
    match compositeKeyColumns tableName with
    | none => .error ("Unknown table name: " ++ tableName)
    | some kcols =>
      if (kcols.all (fun c => tdf.cols.contains c)) = false then
        .error ("missing key column in stored table " ++ tableName)
      else if (kcols.all (fun c => df.cols.contains c)) = false then
        .error ("missing key column in candidate for " ++ tableName)
      else
        let existing := tdf.rows.map (fun r => joinKey kcols r)
        let df1 := addCompositeKey df kcols
        let kept := df1.rows.filter
          (fun r => (existing.contains (Row.get r "composite_key")) = false)
        .ok (dropColF { cols := df1.cols, rows := kept } "composite_key", df1)

/-- `upload_data` / `upload_dimension` (lines 244-264 and 273-293; they
differ only in the chunk size passed to `to_sql`, which has no effect on the
resulting table).  Returns the new store, the log line emitted, and the
post-call state of the caller's candidate frame. -/
def upload_data (df : DFrame) (store : Store) (tableName : String) :
    Except String (Store × List String × DFrame) :=
  match filter_existing_data df store tableName with
  | .error e => .error e
  | .ok (dfToUpload, dfAfter) =>
    if dfToUpload.rows.isEmpty then
      .ok (store, ["No new rows to upload."], dfAfter)
    else
      .ok (appendTable store tableName dfToUpload,
           [toString dfToUpload.rows.length ++ " new rows uploaded successfully."],
           dfAfter)

/-- Project a row onto a column list, in that column order (`df[cs]` applied
row-wise). -/
def projRow (cs : List String) (r : Row) : Row :=
  cs.map (fun c => (c, Row.get r c))

/-- `df[cs]`: column selection, in the given order. -/
def projectCols (df : DFrame) (cs : List String) : DFrame :=
  { cols := cs, rows := df.rows.map (projRow cs) }

/-- `df.rename(columns={old: new})`. -/
def renameCol (df : DFrame) (old new : String) : DFrame :=
  { cols := df.cols.map (fun c => if c = old then new else c),
    rows := df.rows.map (fun r =>
      r.map (fun p => if p.1 = old then (new, p.2) else p)) }

/-- `df[c] = f(row)`: per-row column assignment. -/
def setColumn (df : DFrame) (c : String) (f : Row → String) : DFrame :=
  { cols := if df.cols.contains c then df.cols else df.cols ++ [c],
    rows := df.rows.map (fun r => Row.set r c (f r)) }

/-- `df[c] = range(start+1, start+len+1)`: the surrogate-key assignment. -/
def addRangeColumn (df : DFrame) (c : String) (start : ℕ) : DFrame :=
  { cols := if df.cols.contains c then df.cols else df.cols ++ [c],
    rows := df.rows.enum.map
      (fun p => Row.set p.2 c (toString (start + 1 + p.1))) }

/-- `drop_duplicates()`: keep the first occurrence of each distinct row. -/
def dedupRows (rows : List Row) : List Row :=
  rows.foldl (fun acc r => if acc.contains r then acc else acc ++ [r]) []

/-- The five customer business-key columns (line 138). -/
def customerCols : List String :=
  ["personal_id", "name", "country", "year_of_birth", "income_range"]

/-- The three product business-key columns (line 153). -/
def productCols : List String := ["company", "product", "premium"]

/-- `extract_customer_dimension(df)` (lines 136-148).  Takes and returns the
`last_customer_id` counter explicitly: the source declares the global but
contains no statement advancing it, so the returned counter equals the one
passed in.  A missing business-key column is a pandas `KeyError`. -/
def extract_customer_dimension (lastCustomerId : ℕ) (df : DFrame) :
    Except String (DFrame × ℕ) :=
  if (customerCols.all (fun c => df.cols.contains c)) = false then
    .error "KeyError: missing customer column"
  else
    let base := dedupRows (projectCols df customerCols).rows
    let withId := base.enum.map
      (fun p => Row.set p.2 "customer_id" (toString (lastCustomerId + 1 + p.1)))
    .ok ({ cols := "customer_id" :: customerCols,
           rows := withId.map (projRow ("customer_id" :: customerCols)) },
         lastCustomerId)

/-- `extract_product_dimension(df)` (lines 151-162), analogous; the global
`last_product_id` is likewise read but never advanced. -/
def extract_product_dimension (lastProductId : ℕ) (df : DFrame) :
    Except String (DFrame × ℕ) :=
  if (productCols.all (fun c => df.cols.contains c)) = false then
    .error "KeyError: missing product column"
  else
    let base := dedupRows (projectCols df productCols).rows
    let withId := base.enum.map
      (fun p => Row.set p.2 "product_id" (toString (lastProductId + 1 + p.1)))
    .ok ({ cols := "product_id" :: productCols,
           rows := withId.map (projRow ("product_id" :: productCols)) },
         lastProductId)

/-- `encrypt_data(df, cipher, encrypt)` (lines 89-97).  The Fernet cipher
composed with encode/decode is an opaque text-to-text function here. -/
def encrypt_data (df : DFrame) (cipher : String → String) (encrypt : Bool) :
    DFrame :=
  if encrypt then
    if df.cols.contains "personal_id" then
      { cols := df.cols,
        rows := df.rows.map
          (fun r => Row.set r "personal_id" (cipher (Row.get r "personal_id"))) }
    else df
  else df

/-- The ten required source columns of `create_sales_df` (line 172), in the
order the code checks them. -/
def requiredColumns : List String :=
  ["timestamp", "quantity", "company", "product", "premium",
   "personal_id", "name", "country", "year_of_birth", "income_range"]

/-- `company + product + premium.astype(str)` (lines 183-184). -/
def productMergeKey (r : Row) : String :=
  Row.get r "company" ++ Row.get r "product" ++ Row.get r "premium"

/-- `personal_id + name + country + year_of_birth.astype(str) + income_range`
(lines 195-197). -/
def customerMergeKey (r : Row) : String :=
  Row.get r "personal_id" ++ Row.get r "name" ++ Row.get r "country"
    ++ Row.get r "year_of_birth" ++ Row.get r "income_range"

/-- `s.replace(a, b)` for the single-character pattern and replacement the
code uses (spaces to underscores), structurally recursive so concrete runs
reduce in the kernel. -/
def replaceChar (a b : Char) (s : String) : String :=
  String.mk (s.data.map (fun ch => if ch = a then b else ch))

/-- Whether the character list starts with the separator. -/
def startsWithSep : List Char → List Char → Bool
  | [], _ => true
  | _ :: _, [] => false
  | a :: as, b :: bs => a == b && startsWithSep as bs

/-- Fuel-driven worker for Python `str.split(sep)`: non-overlapping,
left-to-right; the fuel bounds recursion depth and is always ample. -/
def splitChars (sep : List Char) : ℕ → List Char → List Char → List (List Char)
  | 0, rest, acc => [acc.reverse ++ rest]
  | _ + 1, [], acc => [acc.reverse]
  | fuel + 1, c :: cs, acc =>
    if startsWithSep sep (c :: cs) then
      acc.reverse :: splitChars sep fuel (List.drop (sep.length - 1) cs) []
    else
      splitChars sep fuel cs (c :: acc)

/-- Python `s.split(sep)` for a non-empty separator (`|` and `//` here). -/
def strSplitOn (s sep : String) : List String :=
  if sep.data.isEmpty then [s]
  else (splitChars sep.data (s.data.length + 1) s.data []).map
    (fun cs => String.mk cs)

/-- `left.merge(right[rightCols], how=left, left_on=lkey, right_on=rkey)`:
one output row per matching pair, and a null-padded row (null read as the
empty string) for an unmatched left row.  Column-name collisions between the
two sides are irrelevant here: the only colliding label after the second
merge is `merge_key`, which nothing reads afterwards. -/
def mergeLeft (left right : DFrame) (rightCols : List String)
    (lkey rkey : String) : DFrame :=
  { cols := left.cols ++ rightCols,
    rows := (left.rows.map (fun l =>
      let ms := right.rows.filter
        (fun r => decide (Row.get r rkey = Row.get l lkey))
      if ms.isEmpty then [l ++ rightCols.map (fun c => (c, ""))]
      else ms.map (fun r => l ++ projRow rightCols r))).flatten }

/-- Width of `series.str.split(sep, expand=True)` for the given column: the
maximum number of split parts over the rows (zero for an empty frame). -/
def splitWidthOf (df : DFrame) (c sep : String) : ℕ :=
  (df.rows.map (fun r => (strSplitOn (Row.get r c) sep).length)).foldr max 0

/-- The outputs of `create_sales_df`: the sales frame it returns, the
post-call states of the two dimension frames it mutates in place, the new
`last_transaction_id`, and the warnings logged. -/
structure SalesResult where
  sales : DFrame
  customerDf : DFrame
  productDf : DFrame
  lastTransactionId : ℕ
  warnings : List String
deriving DecidableEq

/-- The dimension-frame side effects of `create_sales_df` (lines 183/195 add
`merge_key`, lines 217-240 rewrite spaces, split and drop), shared between
the product and customer frames: build `merge_key` with `mkFn`, rewrite
spaces to underscores in `srcCol`, split it on `sep`, assign the two
sub-attribute columns when the expand width is exactly 2 (else keep them
unset and log `warnLabel` plus the width), and finally drop `srcCol`.
Returns the final frame and the warnings.  These steps touch only the
dimension frame, so hoisting them out of the interleaved source order is
behavior-preserving: the fact-side merges read the dimension frame at the
`merge_key` stage, which is recomputed identically in `create_sales_df`. -/
def splitSideEffect (dfIn : DFrame) (mkFn : Row → String)
    (srcCol sep cat det warnLabel : String) : DFrame × List String :=
  let d2 := setColumn (setColumn dfIn "merge_key" mkFn) srcCol
    (fun r => replaceChar ' ' '_' (Row.get r srcCol))
  let w := splitWidthOf d2 srcCol sep
  let d3 :=
    if w = 2 then
      setColumn (setColumn d2 cat
          (fun r => (strSplitOn (Row.get r srcCol) sep).getD 0 ""))
        det (fun r => (strSplitOn (Row.get r srcCol) sep).getD 1 "")
    else d2
  (dropColF d3 srcCol,
   if w = 2 then ([] : List String) else [warnLabel ++ toString w])

/-- The product-frame side effect of `create_sales_df`. -/
def productSideEffect (prodDf : DFrame) : DFrame × List String :=
  splitSideEffect prodDf productMergeKey "product" "|"
    "product_category" "product_detail"
    "Unexpected number of columns when splitting product. Found: "

/-- The customer-frame side effect of `create_sales_df`. -/
def customerSideEffect (custDf : DFrame) : DFrame × List String :=
  splitSideEffect custDf customerMergeKey "name" "//"
    "first_name" "last_name"
    "Unexpected number of columns when splitting name. Found: "

/-- `create_sales_df(df, customer_df, product_df)` (lines 165-242), with the
global `last_transaction_id` passed and returned explicitly (this one the
source does advance, line 213). -/
def create_sales_df (df custDf prodDf : DFrame) (lastTransactionId : ℕ) :
    Except String SalesResult :=
  match requiredColumns.find? (fun c => (df.cols.contains c) = false) with
  | some c => .error ("Missing column in DataFrame: " ++ c)
  | none =>
    let sales0 := projectCols df requiredColumns
    let sales1 := renameCol sales0 "timestamp" "sale_date"
    let prod1 := setColumn prodDf "merge_key" productMergeKey
    let sales2 := setColumn sales1 "product_merge_key" productMergeKey
    let sales3 := mergeLeft sales2 prod1 ["merge_key", "product_id"]
      "product_merge_key" "merge_key"
    let w1 := if (sales3.cols.contains "product_id") = false then
        ["product_id not found in sales_df after merging with product_df."]
      else []
    let cust1 := setColumn custDf "merge_key" customerMergeKey
    let sales4 := setColumn sales3 "customer_merge_key" customerMergeKey
    let sales5 := mergeLeft sales4 cust1 ["merge_key", "customer_id"]
      "customer_merge_key" "merge_key"
    let w2 := if (sales5.cols.contains "customer_id") = false then
        ["customer_id not found in sales_df after merging with customer_df."]
      else []
    let sales6 := addRangeColumn sales5 "transaction_id" lastTransactionId
    let newLast := lastTransactionId + sales5.rows.length
    let sales7 := projectCols sales6
      ["transaction_id", "customer_id", "product_id", "quantity", "sale_date"]
    .ok { sales := sales7,
          customerDf := (customerSideEffect custDf).1,
          productDf := (productSideEffect prodDf).1,
          lastTransactionId := newLast,
          warnings := w1 ++ w2 ++ (productSideEffect prodDf).2
            ++ (customerSideEffect custDf).2 }

/-- A raw record of the quality gate, typed: `year_of_birth` and `premium`
are numeric (`ℚ` for pandas floats), and the two columns `fillna` targets
are nullable. -/
structure QRow where
  personal_id : String
  name : String
  country : String
  year_of_birth : Option ℚ
  income_range : Option String
  company : String
  product : String
  premium : ℚ
  quantity : ℚ
  timestamp : String
deriving DecidableEq

/-- A row contributes to `df.isnull().any().any()`: only the two nullable
columns can be null in this embedding. -/
def rowHasNull (r : QRow) : Bool :=
  r.year_of_birth.isNone || r.income_range.isNone

/-- `df[year_of_birth].mean()`: pandas skips nulls; the mean of an all-null
column is NaN, modelled as `none`. -/
def yobMean (rows : List QRow) : Option ℚ :=
  let present := rows.filterMap (fun r => r.year_of_birth)
  if present.length = 0 then none
  else some (present.sum / (present.length : ℚ))

/-- One row after `df.fillna({income_range: Middle Earner,
year_of_birth: mean})`. -/
def fillRow (m : Option ℚ) (r : QRow) : QRow :=
  { r with
    year_of_birth := match r.year_of_birth with
      | some y => some y
      | none => m,
    income_range := some (r.income_range.getD "Middle Earner") }

/-- `df[age].between(17, 100)`; a null age (NaN) compares false, exactly as
NaN does in pandas. -/
def ageBetween (a : Option ℚ) : Bool :=
  match a with
  | none => false
  | some v => decide (17 ≤ v) && decide (v ≤ 100)

/-- Lines 75-77 of `validate_data`: conditional `fillna` of the two
nullable columns when any null is present. -/
def validateFill (rows : List QRow) : List QRow × List String :=
  if rows.any rowHasNull then
    (rows.map (fillRow (yobMean rows)), ["Missing values found in the data."])
  else (rows, ([] : List String))

/-- `df[age] = current_year - df[year_of_birth]` for one row (line 80); a
null year yields a null age (NaN arithmetic). -/
def addAge (currentYear : ℚ) (r : QRow) : QRow × Option ℚ :=
  (r, r.year_of_birth.map (fun y => currentYear - y))

/-- Lines 80-83 of `validate_data`: derive the `age` column and filter on
`age.between(17, 100)` only when some row violates it. -/
def validateAge (currentYear : ℚ) (rows : List QRow) :
    List (QRow × Option ℚ) × List String :=
  if ((rows.map (addAge currentYear)).all (fun p => ageBetween p.2)) = false then
    ((rows.map (addAge currentYear)).filter (fun p => ageBetween p.2),
     ["Outliers detected in year_of_birth."])
  else (rows.map (addAge currentYear), ([] : List String))

/-- Lines 84-86 of `validate_data`: filter on `premium >= 0` only when a
negative premium is present. -/
def validatePremium (rows : List (QRow × Option ℚ)) :
    List (QRow × Option ℚ) × List String :=
  if rows.any (fun p => decide (p.1.premium < 0)) then
    (rows.filter (fun p => decide (0 ≤ p.1.premium)),
     ["Negative Premium values found."])
  else (rows, ([] : List String))

/-- `validate_data(df)` (lines 71-87) over a batch of typed rows, with the
current year passed in (the code reads the wall clock).  The result pairs
each surviving row with its derived `age` column and carries the warnings
logged. -/
def validate_data (currentYear : ℚ) (rows : List QRow) :
    List (QRow × Option ℚ) × List String :=
  let fill := validateFill rows
  let aged := validateAge currentYear fill.1
  let prem := validatePremium aged.1
  (prem.1, fill.2 ++ aged.2 ++ prem.2)

/-- The `encryption` section of the configuration consumed by `main`:
`encrypt` read with `.get(encrypt, False)`, `key` read with direct
indexing. -/
structure EncConfig where
  encrypt : Option Bool
  key : Option String
deriving DecidableEq

/-- The key-setup prologue of `main` (lines 302-313), with the fresh Fernet
key passed in for the generated-key case.  Returns the resulting
configuration, whether `save_config` was called, and the key the cipher is
built from; reading a missing `key` when encryption is disabled is a Python
`KeyError`. -/
def mainKeySetup (genKey : String) (cfg : EncConfig) :
    Except String (EncConfig × Bool × String) :=
  let encrypt := cfg.encrypt.getD false
  if encrypt then
    .ok ({ cfg with key := some genKey }, true, genKey)
  else
    match cfg.key with
    | some k => .ok (cfg, false, k)
    | none => .error "KeyError: key"

section ListHelpers

theorem scontains_iff_mem (l : List String) (a : String) :
    l.contains a = true ↔ a ∈ l :=
  List.elem_iff

theorem scontains_eq_false_iff (l : List String) (a : String) :
    l.contains a = false ↔ a ∉ l := by
  rw [← scontains_iff_mem l a]
  cases h : l.contains a <;> simp

theorem ahas_eq_isSome {α : Type} (l : List (String × α)) (k : String) :
    ahas l k = (alookup l k).isSome := by
  induction l with
  | nil => rfl
  | cons p ps ih =>
    by_cases hp : p.1 = k
    · simp [ahas, alookup, hp]
    · simp [ahas, alookup, hp, ← ih]

theorem foldr_max_of_all_eq_two (l : List ℕ) (hne : l ≠ [])
    (h : ∀ x ∈ l, x = 2) : l.foldr max 0 = 2 := by
  induction l with
  | nil => exact absurd rfl hne
  | cons x xs ih =>
    have hx : x = 2 := h x (List.mem_cons_self x xs)
    cases xs with
    | nil => simp [hx]
    | cons y ys =>
      have hxs := ih (by simp) (fun z hz => h z (List.mem_cons_of_mem x hz))
      simp only [List.foldr_cons] at hxs ⊢
      rw [hx]
      omega

end ListHelpers

/-- A sample post-quality-gate batch of two rows: the same customer business
key, two different products (the end-to-end scenario of the spec). -/
def sampleRow1 : Row :=
  [("timestamp", "2020-01-01"), ("quantity", "2"), ("company", "ALLIANZ"),
   ("product", "AUTO|COLLISION"), ("premium", "100"), ("personal_id", "P1"),
   ("name", "JOHN//DOE"), ("country", "DE"), ("year_of_birth", "1990"),
   ("income_range", "MID")]

/-- Second sample row: same customer, different product. -/
def sampleRow2 : Row :=
  [("timestamp", "2020-01-02"), ("quantity", "1"), ("company", "ALLIANZ"),
   ("product", "HOME|FIRE"), ("premium", "50"), ("personal_id", "P1"),
   ("name", "JOHN//DOE"), ("country", "DE"), ("year_of_birth", "1990"),
   ("income_range", "MID")]

/-- The sample batch frame. -/
def sampleDf : DFrame := { cols := requiredColumns, rows := [sampleRow1, sampleRow2] }

/-- The customer dimension extracted from the sample batch. -/
def sampleCust : DFrame :=
  ((extract_customer_dimension 0 sampleDf).toOption.getD (DFrame.empty, 0)).1

/-- The product dimension extracted from the sample batch. -/
def sampleProd : DFrame :=
  ((extract_product_dimension 0 sampleDf).toOption.getD (DFrame.empty, 0)).1

/-- The outcome of `create_sales_df` on the sample batch. -/
def sampleRes : SalesResult :=
  (create_sales_df sampleDf sampleCust sampleProd 0).toOption.getD
    ⟨DFrame.empty, DFrame.empty, DFrame.empty, 0, []⟩

/-- A second batch whose customer and product business keys differ from the
sample batch in every column. -/
def otherRow : Row :=
  [("timestamp", "2020-02-05"), ("quantity", "3"), ("company", "AXA"),
   ("product", "LIFE|TERM"), ("premium", "70"), ("personal_id", "P2"),
   ("name", "JANE//ROE"), ("country", "FR"), ("year_of_birth", "1985"),
   ("income_range", "HIGH")]

/-- The second batch frame. -/
def otherDf : DFrame := { cols := requiredColumns, rows := [otherRow] }

/-- Claim C1 (code_bug): the claim says each extraction call advances its
counter by the number of distinct rows, so surrogate keys never collide
across batches of one run.  The source declares `global last_customer_id` /
`global last_product_id` and comments that the id continues from the last
one, but contains no statement advancing either counter (contrast
`last_transaction_id += len(sales_df)` on line 213).  Concretely: extracting
the sample batch returns the counter still at 0, so extracting a second,
disjoint batch with that returned counter assigns `customer_id` 1 and
`product_id` 1 again, colliding with the first batch's keys. -/
theorem surrogate_key_counter_never_advanced :
    (extract_customer_dimension 0 sampleDf).map
        (fun p => (p.1.rows.map (fun r => Row.get r "customer_id"), p.2))
      = .ok (["1"], 0) ∧
    (extract_customer_dimension 0 otherDf).map
        (fun p => (p.1.rows.map (fun r => Row.get r "customer_id"), p.2))
      = .ok (["1"], 0) ∧
    (extract_product_dimension 0 sampleDf).map
        (fun p => (p.1.rows.map (fun r => Row.get r "product_id"), p.2))
      = .ok (["1", "2"], 0) ∧
    (extract_product_dimension 0 otherDf).map
        (fun p => (p.1.rows.map (fun r => Row.get r "product_id"), p.2))
      = .ok (["1"], 0) := by
  refine ⟨?_, ?_, ?_, ?_⟩ <;> rfl

/-- Claim C8 (counterexample): with `encrypt` true and a key already present
in the configuration, `main` still generates a fresh key, overwrites the
stored one and calls `save_config` — the claim says the existing key is used
and the configuration is not rewritten. -/
theorem key_rewritten_despite_existing_key :
    mainKeySetup "NEWKEY" { encrypt := some true, key := some "OLDKEY" }
      = .ok ({ encrypt := some true, key := some "NEWKEY" }, true, "NEWKEY") := by
  rfl

/-- Claim C8 (amended): a new key is generated and written back to the
configuration store whenever `encryption.encrypt` is true — also when a key
is already present, in which case the old key is discarded; the stored key
is used and the configuration left unrewritten only when `encrypt` is
false. -/
theorem mainKeySetup_always_regenerates (genKey : String) (cfg : EncConfig) :
    (cfg.encrypt.getD false = true →
      mainKeySetup genKey cfg = .ok ({ cfg with key := some genKey }, true, genKey)) ∧
    (∀ k, cfg.encrypt.getD false = false → cfg.key = some k →
      mainKeySetup genKey cfg = .ok (cfg, false, k)) := by
  constructor
  · intro h
    simp [mainKeySetup, h]
  · intro k h hk
    simp [mainKeySetup, h, hk]

/-- Witness for the amended C8 theorem at concrete configurations. -/
theorem mainKeySetup_always_regenerates_witness :
    mainKeySetup "NEWKEY" { encrypt := some true, key := some "K0" }
      = .ok ({ encrypt := some true, key := some "NEWKEY" }, true, "NEWKEY") ∧
    mainKeySetup "NEWKEY" { encrypt := some false, key := some "K0" }
      = .ok ({ encrypt := some false, key := some "K0" }, false, "K0") :=
  ⟨(mainKeySetup_always_regenerates "NEWKEY"
      { encrypt := some true, key := some "K0" }).1 (by decide),
   (mainKeySetup_always_regenerates "NEWKEY"
      { encrypt := some false, key := some "K0" }).2 "K0" (by decide) rfl⟩

/-- Claim C7: with the flag false, `encrypt_data` returns the batch
unchanged; with the flag true (and the batch carrying a `personal_id`
column, as every batch of this pipeline does), it replaces exactly the
`personal_id` cell of every row with the ciphertext text and leaves every
other cell and the column list unchanged; a batch without the column is
returned unchanged. -/
theorem encrypt_data_spec (df : DFrame) (cipher : String → String) :
    encrypt_data df cipher false = df ∧
    (df.cols.contains "personal_id" = true →
      (encrypt_data df cipher true).cols = df.cols ∧
      (encrypt_data df cipher true).rows =
        df.rows.map
          (fun r => Row.set r "personal_id" (cipher (Row.get r "personal_id"))) ∧
      ∀ r ∈ df.rows,
        Row.get (Row.set r "personal_id" (cipher (Row.get r "personal_id")))
            "personal_id" = cipher (Row.get r "personal_id") ∧
        ∀ c, c ≠ "personal_id" →
          Row.get (Row.set r "personal_id" (cipher (Row.get r "personal_id"))) c
            = Row.get r c) ∧
    (df.cols.contains "personal_id" = false →
      encrypt_data df cipher true = df) := by
  refine ⟨rfl, ?_, ?_⟩
  · intro h
    rw [scontains_iff_mem] at h
    refine ⟨by simp [encrypt_data, h], by simp [encrypt_data, h], ?_⟩
    intro r _
    exact ⟨Row.get_set_self r _ _, fun c hc => Row.get_set_ne r _ c _ hc⟩
  · intro h
    rw [scontains_eq_false_iff] at h
    simp [encrypt_data, h]

/-- A concrete stand-in for `cipher.encrypt(x.encode()).decode()`. -/
def c7Cipher (s : String) : String := "ENC:" ++ s

/-- Witness for C7 on the sample batch. -/
theorem encrypt_data_spec_witness :
    encrypt_data sampleDf c7Cipher false = sampleDf ∧
    (encrypt_data sampleDf c7Cipher true).rows =
      sampleDf.rows.map
        (fun r => Row.set r "personal_id" (c7Cipher (Row.get r "personal_id"))) ∧
    Row.get (Row.set sampleRow1 "personal_id"
        (c7Cipher (Row.get sampleRow1 "personal_id"))) "personal_id"
      = "ENC:P1" := by
  have h := encrypt_data_spec sampleDf c7Cipher
  refine ⟨h.1, (h.2.1 (by decide)).2.1, ?_⟩
  have h2 := (h.2.1 (by decide)).2.2 sampleRow1 (by decide)
  exact h2.1.trans (by decide)

/-- Claim C4: `create_sales_df` raises (returns `.error`, producing no fact
rows) exactly when one of the ten required source columns is absent from the
batch; with all ten present the column check passes and the call
succeeds. -/
theorem create_sales_df_missing_column_iff (df custDf prodDf : DFrame)
    (n : ℕ) :
    (∃ e, create_sales_df df custDf prodDf n = .error e) ↔
      ∃ c ∈ requiredColumns, df.cols.contains c = false := by
  cases hf : requiredColumns.find? (fun c => (df.cols.contains c) = false) with
  | some c =>
    constructor
    · intro _
      refine ⟨c, List.mem_of_find?_eq_some hf, ?_⟩
      have := List.find?_some hf
      simpa using this
    · intro _
      refine ⟨"Missing column in DataFrame: " ++ c, ?_⟩
      unfold create_sales_df
      rw [hf]
  | none =>
    constructor
    · rintro ⟨e, he⟩
      unfold create_sales_df at he
      rw [hf] at he
      cases he
    · rintro ⟨c, hc, hcc⟩
      rw [List.find?_eq_none] at hf
      exact absurd hcc (by simpa using hf c hc)

theorem contains_append_single_self (l : List String) (c : String) :
    (l ++ [c]).contains c = true := by
  rw [scontains_iff_mem]
  simp

theorem contains_filter_ne_self (l : List String) (c : String) :
    (l.filter (fun x => decide (x ≠ c))).contains c = false := by
  rw [scontains_eq_false_iff]
  simp [List.mem_filter]

theorem addCompositeKey_cols_contains (df : DFrame) (kcols : List String) :
    (addCompositeKey df kcols).cols.contains "composite_key" = true := by
  unfold addCompositeKey
  by_cases hc : df.cols.contains "composite_key" = true
  · rw [if_pos hc]
    exact hc
  · rw [if_neg hc]
    exact contains_append_single_self _ _

/-- Unfolding of `filter_existing_data` when the table is absent. -/
theorem filter_existing_data_none_eq (df : DFrame) (store : Store)
    (tableName : String) (ht : alookup store tableName = none) :
    filter_existing_data df store tableName = .ok (df, df) := by
  unfold filter_existing_data
  rw [ht]

/-- Unfolding of `filter_existing_data` when the table exists and the table
name is one of the three known ones. -/
theorem filter_existing_data_some_eq (df : DFrame) (store : Store)
    (tableName : String) (tdf : DFrame) (kcols : List String)
    (ht : alookup store tableName = some tdf)
    (hk : compositeKeyColumns tableName = some kcols) :
    filter_existing_data df store tableName =
      (if (kcols.all (fun c => tdf.cols.contains c)) = false then
        .error ("missing key column in stored table " ++ tableName)
      else if (kcols.all (fun c => df.cols.contains c)) = false then
        .error ("missing key column in candidate for " ++ tableName)
      else
        .ok (dropColF
              { cols := (addCompositeKey df kcols).cols,
                rows := (addCompositeKey df kcols).rows.filter
                  (fun r =>
                    ((tdf.rows.map (fun r => joinKey kcols r)).contains
                      (Row.get r "composite_key")) = false) }
              "composite_key",
             addCompositeKey df kcols)) := by
  unfold filter_existing_data
  rw [ht, hk]

/-- Unfolding of `upload_data` through a given filtering result. -/
theorem upload_data_eq (df : DFrame) (store : Store) (tableName : String)
    (fdf dfAfter : DFrame)
    (hf : filter_existing_data df store tableName = .ok (fdf, dfAfter)) :
    upload_data df store tableName =
      (if fdf.rows.isEmpty then
        .ok (store, ["No new rows to upload."], dfAfter)
      else
        .ok (appendTable store tableName fdf,
             [toString fdf.rows.length ++ " new rows uploaded successfully."],
             dfAfter)) := by
  unfold upload_data
  rw [hf]

/-- Claim C10: whenever the target table already exists, a call to
`filter_existing_data` adds a `composite_key` column to the caller's
candidate frame as a side effect (the post-call state of the argument is the
input with the dash-joined key column set on every row), while the filtered
frame it returns has the column dropped. -/
theorem filter_existing_data_mutates_input
    (df : DFrame) (store : Store) (tableName : String) (tdf : DFrame)
    (kcols : List String) (fdf dfAfter : DFrame)
    (ht : alookup store tableName = some tdf)
    (hk : compositeKeyColumns tableName = some kcols)
    (h : filter_existing_data df store tableName = .ok (fdf, dfAfter)) :
    dfAfter.cols.contains "composite_key" = true ∧
    dfAfter.rows = df.rows.map
      (fun r => Row.set r "composite_key" (joinKey kcols r)) ∧
    fdf.cols.contains "composite_key" = false := by
  rw [filter_existing_data_some_eq df store tableName tdf kcols ht hk] at h
  by_cases h1 : (kcols.all (fun c => tdf.cols.contains c)) = false
  · rw [if_pos h1] at h
    cases h
  · rw [if_neg h1] at h
    by_cases h2 : (kcols.all (fun c => df.cols.contains c)) = false
    · rw [if_pos h2] at h
      cases h
    · rw [if_neg h2] at h
      have h3 := Except.ok.inj h
      injection h3 with hfdf hafter
      subst hfdf
      subst hafter
      exact ⟨addCompositeKey_cols_contains df kcols, rfl,
        contains_filter_ne_self _ _⟩

/-- Concrete store holding the customer dimension produced from the sample
batch, after its first upload. -/
def c6Store : Store :=
  ((upload_data sampleRes.customerDf [] "dim_customer").toOption.getD
    ([], [], DFrame.empty)).1

/-- The result of filtering the same candidate against that store: empty. -/
def c6FilterRes : DFrame × DFrame :=
  (filter_existing_data sampleRes.customerDf c6Store "dim_customer").toOption.getD
    (DFrame.empty, DFrame.empty)

/-- Witness for C10: filtering the sample customer dimension against the
store that already holds it leaves a `composite_key` column on the caller's
frame and none on the returned frame. -/
theorem filter_existing_data_mutates_input_witness :
    (c6FilterRes.2).cols.contains "composite_key" = true ∧
    (c6FilterRes.2).rows = sampleRes.customerDf.rows.map
      (fun r => Row.set r "composite_key" (joinKey ["merge_key"] r)) ∧
    (c6FilterRes.1).cols.contains "composite_key" = false :=
  filter_existing_data_mutates_input sampleRes.customerDf c6Store
    "dim_customer" (getTable c6Store "dim_customer") ["merge_key"]
    c6FilterRes.1 c6FilterRes.2 (by decide) (by decide) (by decide)

/-- Claim C6: when the target table does not yet exist, the Incremental
Loader returns the candidate batch unchanged (first-load case, before any
composite-key mutation); and when the filtered candidate set is empty, the
upload performs no write — the store comes back identical — and logs
exactly `No new rows to upload.`. -/
theorem first_load_and_empty_upload (df : DFrame) (store : Store)
    (tableName : String) :
    (hasTable store tableName = false →
      filter_existing_data df store tableName = .ok (df, df)) ∧
    (∀ fdf dfAfter,
      filter_existing_data df store tableName = .ok (fdf, dfAfter) →
      fdf.rows = [] →
      upload_data df store tableName
        = .ok (store, ["No new rows to upload."], dfAfter)) := by
  constructor
  · intro h
    unfold hasTable at h
    cases halk : alookup store tableName with
    | none => exact filter_existing_data_none_eq df store tableName halk
    | some tdf =>
      rw [halk] at h
      simp at h
  · intro fdf dfAfter hf hrows
    rw [upload_data_eq df store tableName fdf dfAfter hf, hrows]
    rfl

/-- Witness for C6: the first-load case on the empty store, and the
no-write case against a store already holding every candidate row. -/
theorem first_load_and_empty_upload_witness :
    filter_existing_data sampleRes.customerDf [] "dim_customer"
      = .ok (sampleRes.customerDf, sampleRes.customerDf) ∧
    upload_data sampleRes.customerDf c6Store "dim_customer"
      = .ok (c6Store, ["No new rows to upload."], c6FilterRes.2) :=
  ⟨(first_load_and_empty_upload sampleRes.customerDf [] "dim_customer").1
      (by rfl),
   (first_load_and_empty_upload sampleRes.customerDf c6Store "dim_customer").2
      c6FilterRes.1 c6FilterRes.2 (by decide) (by decide)⟩

theorem validateAge_mem (currentYear : ℚ) (rows : List QRow) :
    ∀ p ∈ (validateAge currentYear rows).1, ageBetween p.2 = true := by
  intro p hp
  unfold validateAge at hp
  by_cases hc : ((rows.map (addAge currentYear)).all
      (fun p => ageBetween p.2)) = false
  · rw [if_pos hc] at hp
    exact (List.mem_filter.mp hp).2
  · rw [if_neg hc] at hp
    cases h2 : (rows.map (addAge currentYear)).all (fun p => ageBetween p.2) with
    | false => exact absurd h2 hc
    | true => exact List.all_eq_true.mp h2 p hp

theorem validatePremium_mem (rows : List (QRow × Option ℚ)) :
    ∀ p ∈ (validatePremium rows).1, 0 ≤ p.1.premium ∧ p ∈ rows := by
  intro p hp
  unfold validatePremium at hp
  by_cases hc : rows.any (fun p => decide (p.1.premium < 0)) = true
  · rw [if_pos hc] at hp
    have h2 := List.mem_filter.mp hp
    exact ⟨of_decide_eq_true h2.2, h2.1⟩
  · rw [if_neg hc] at hp
    refine ⟨?_, hp⟩
    by_contra hneg
    exact hc (List.any_eq_true.mpr
      ⟨p, hp, decide_eq_true (lt_of_not_le hneg)⟩)

/-- Claim C3: every row surviving the quality gate carries an `age` value in
the closed interval 17..100 and a non-negative premium; rows violating
either bound are filtered out (with a logged warning, carried in the second
component), and `validate_data` is a total function — it never fails. -/
theorem validate_data_bounds (currentYear : ℚ) (rows : List QRow)
    (p : QRow × Option ℚ) (hp : p ∈ (validate_data currentYear rows).1) :
    (∃ a, p.2 = some a ∧ 17 ≤ a ∧ a ≤ 100) ∧ 0 ≤ p.1.premium := by
  unfold validate_data at hp
  have h1 := validatePremium_mem _ p hp
  have h2 := validateAge_mem currentYear _ p h1.2
  refine ⟨?_, h1.1⟩
  cases hpa : p.2 with
  | none =>
    rw [hpa] at h2
    simp [ageBetween] at h2
  | some a =>
    rw [hpa] at h2
    simp only [ageBetween, Bool.and_eq_true, decide_eq_true_eq] at h2
    exact ⟨a, rfl, h2.1, h2.2⟩

/-- A concrete quality-gate row: born 1990, premium 100. -/
def c3Row : QRow :=
  { personal_id := "P1", name := "JOHN//DOE", country := "DE",
    year_of_birth := some 1990, income_range := some "MID",
    company := "ALLIANZ", product := "AUTO|COLLISION", premium := 100,
    quantity := 2, timestamp := "2020-01-01" }

/-- Witness for C3: the sample row survives the gate in year 2025 with age
35 and the bounds hold. -/
theorem validate_data_bounds_witness :
    (∃ a, ((c3Row, (some 35 : Option ℚ)) : QRow × Option ℚ).2 = some a ∧
      17 ≤ a ∧ a ≤ 100) ∧
    0 ≤ ((c3Row, (some 35 : Option ℚ)) : QRow × Option ℚ).1.premium := by
  have hage : (2025 : ℚ) - 1990 = 35 := by norm_num
  refine validate_data_bounds 2025 [c3Row] (c3Row, some 35) ?_
  simp [validate_data, validateFill, validateAge, validatePremium,
    rowHasNull, addAge, ageBetween, c3Row, hage]
  norm_num

theorem contains_append_single_of_ne (l : List String) (c x : String)
    (h : c ≠ x) : (l ++ [x]).contains c = l.contains c := by
  cases hc : l.contains c with
  | true =>
    rw [scontains_iff_mem] at hc ⊢
    exact List.mem_append_left _ hc
  | false =>
    rw [scontains_eq_false_iff] at hc ⊢
    intro hmem
    rcases List.mem_append.mp hmem with h1 | h2
    · exact hc h1
    · rw [List.mem_singleton] at h2
      exact h h2

theorem contains_filter_ne_of_ne (l : List String) (c c' : String)
    (h : c' ≠ c) :
    (l.filter (fun x => decide (x ≠ c))).contains c' = l.contains c' := by
  cases hc : l.contains c' with
  | true =>
    rw [scontains_iff_mem] at hc ⊢
    exact List.mem_filter.mpr ⟨hc, by simp [h]⟩
  | false =>
    rw [scontains_eq_false_iff] at hc ⊢
    intro hmem
    exact hc (List.mem_filter.mp hmem).1

theorem setColumn_cols (df : DFrame) (c : String) (f : Row → String) :
    (setColumn df c f).cols =
      if df.cols.contains c then df.cols else df.cols ++ [c] := rfl

theorem setColumn_rows (df : DFrame) (c : String) (f : Row → String) :
    (setColumn df c f).rows = df.rows.map (fun r => Row.set r c (f r)) := rfl

theorem dropColF_cols (df : DFrame) (c : String) :
    (dropColF df c).cols = df.cols.filter (fun x => decide (x ≠ c)) := rfl

theorem dropColF_rows (df : DFrame) (c : String) :
    (dropColF df c).rows = df.rows.map (fun r => Row.drop r c) := rfl

theorem setColumn_cols_contains_self (df : DFrame) (c : String)
    (f : Row → String) : (setColumn df c f).cols.contains c = true := by
  rw [setColumn_cols]
  by_cases hc : df.cols.contains c = true
  · rw [if_pos hc]
    exact hc
  · rw [if_neg hc]
    exact contains_append_single_self _ _

theorem setColumn_cols_contains_mono (df : DFrame) (c : String)
    (f : Row → String) (c' : String) (h : df.cols.contains c' = true) :
    (setColumn df c f).cols.contains c' = true := by
  rw [setColumn_cols]
  by_cases hc : df.cols.contains c = true
  · rw [if_pos hc]
    exact h
  · rw [if_neg hc]
    rw [scontains_iff_mem] at h ⊢
    exact List.mem_append_left _ h

theorem setColumn_cols_contains_of_ne (df : DFrame) (c : String)
    (f : Row → String) (c' : String) (h : c' ≠ c) :
    (setColumn df c f).cols.contains c' = df.cols.contains c' := by
  rw [setColumn_cols]
  by_cases hc : df.cols.contains c = true
  · rw [if_pos hc]
  · rw [if_neg hc]
    exact contains_append_single_of_ne _ _ _ h

/-- The split parts of one input row: its `srcCol` value with spaces
rewritten to underscores, split on `sep`. -/
def colParts (srcCol sep : String) (r : Row) : List String :=
  strSplitOn (replaceChar ' ' '_' (Row.get r srcCol)) sep

/-- The `str.split(expand=True)` width over a whole input frame. -/
def partsWidth (dfIn : DFrame) (srcCol sep : String) : ℕ :=
  (dfIn.rows.map (fun r => (colParts srcCol sep r).length)).foldr max 0

theorem splitSideEffect_width (dfIn : DFrame) (mkFn : Row → String)
    (srcCol sep : String) (hsrc : srcCol ≠ "merge_key") :
    splitWidthOf (setColumn (setColumn dfIn "merge_key" mkFn) srcCol
      (fun r => replaceChar ' ' '_' (Row.get r srcCol))) srcCol sep
      = partsWidth dfIn srcCol sep := by
  unfold splitWidthOf partsWidth
  congr 1
  rw [setColumn_rows, setColumn_rows, List.map_map, List.map_map]
  apply List.map_congr_left
  intro r _
  simp only [Function.comp]
  rw [Row.get_set_self, Row.get_set_ne _ _ _ _ hsrc]
  rfl

theorem splitSideEffect_pos (dfIn : DFrame) (mkFn : Row → String)
    (srcCol sep cat det warnLabel : String)
    (hsrc : srcCol ≠ "merge_key") (hcat : cat ≠ srcCol)
    (hdet : det ≠ srcCol) (hcatdet : cat ≠ det)
    (hw : partsWidth dfIn srcCol sep = 2) :
    (splitSideEffect dfIn mkFn srcCol sep cat det warnLabel).2 = [] ∧
    (splitSideEffect dfIn mkFn srcCol sep cat det
        warnLabel).1.cols.contains cat = true ∧
    (splitSideEffect dfIn mkFn srcCol sep cat det
        warnLabel).1.cols.contains det = true ∧
    (splitSideEffect dfIn mkFn srcCol sep cat det warnLabel).1.rows.map
        (fun r => (Row.get r cat, Row.get r det))
      = dfIn.rows.map (fun r => ((colParts srcCol sep r).getD 0 "",
          (colParts srcCol sep r).getD 1 "")) := by
  simp only [splitSideEffect]
  rw [splitSideEffect_width dfIn mkFn srcCol sep hsrc, if_pos hw, if_pos hw]
  refine ⟨rfl, ?_, ?_, ?_⟩
  · rw [dropColF_cols, contains_filter_ne_of_ne _ _ _ hcat]
    exact setColumn_cols_contains_mono _ _ _ _
      (setColumn_cols_contains_self _ _ _)
  · rw [dropColF_cols, contains_filter_ne_of_ne _ _ _ hdet]
    exact setColumn_cols_contains_self _ _ _
  · rw [dropColF_rows, setColumn_rows, setColumn_rows, setColumn_rows,
      setColumn_rows, List.map_map, List.map_map, List.map_map, List.map_map,
      List.map_map]
    apply List.map_congr_left
    intro r _
    simp only [Function.comp_apply]
    have e1 : Row.get (Row.set (Row.set r "merge_key" (mkFn r)) srcCol
        (replaceChar ' ' '_'
          (Row.get (Row.set r "merge_key" (mkFn r)) srcCol))) srcCol
        = replaceChar ' ' '_' (Row.get r srcCol) := by
      rw [Row.get_set_self, Row.get_set_ne _ _ _ _ hsrc]
    rw [Prod.mk.injEq]
    constructor
    · rw [Row.get_drop_ne _ _ _ hcat, Row.get_set_ne _ _ _ _ hcatdet,
        Row.get_set_self, e1]
      rfl
    · rw [Row.get_drop_ne _ _ _ hdet, Row.get_set_self,
        Row.get_set_ne _ _ _ _ (Ne.symm hcat), e1]
      rfl

theorem splitSideEffect_neg (dfIn : DFrame) (mkFn : Row → String)
    (srcCol sep cat det warnLabel : String)
    (hsrc : srcCol ≠ "merge_key")
    (hw : partsWidth dfIn srcCol sep ≠ 2) :
    (splitSideEffect dfIn mkFn srcCol sep cat det warnLabel).2
      = [warnLabel ++ toString (partsWidth dfIn srcCol sep)] ∧
    ∀ c', c' ≠ srcCol → c' ≠ "merge_key" →
      (splitSideEffect dfIn mkFn srcCol sep cat det
          warnLabel).1.cols.contains c'
        = dfIn.cols.contains c' := by
  simp only [splitSideEffect]
  rw [splitSideEffect_width dfIn mkFn srcCol sep hsrc, if_neg hw, if_neg hw]
  refine ⟨rfl, ?_⟩
  intro c' h1 h2
  rw [dropColF_cols, contains_filter_ne_of_ne _ _ _ h1,
    setColumn_cols_contains_of_ne _ _ _ _ h1,
    setColumn_cols_contains_of_ne _ _ _ _ h2]

theorem splitSideEffect_drops_src (dfIn : DFrame) (mkFn : Row → String)
    (srcCol sep cat det warnLabel : String) :
    (splitSideEffect dfIn mkFn srcCol sep cat det
        warnLabel).1.cols.contains srcCol = false := by
  simp only [splitSideEffect]
  rw [dropColF_cols]
  exact contains_filter_ne_self _ _

theorem splitSideEffect_merge_key (dfIn : DFrame) (mkFn : Row → String)
    (srcCol sep cat det warnLabel : String)
    (hsrc : srcCol ≠ "merge_key") :
    (splitSideEffect dfIn mkFn srcCol sep cat det
        warnLabel).1.cols.contains "merge_key" = true := by
  simp only [splitSideEffect]
  rw [dropColF_cols, contains_filter_ne_of_ne _ _ _ (Ne.symm hsrc)]
  split
  · apply setColumn_cols_contains_mono
    apply setColumn_cols_contains_mono
    rw [setColumn_cols_contains_of_ne _ _ _ _ (Ne.symm hsrc)]
    exact setColumn_cols_contains_self _ _ _
  · rw [setColumn_cols_contains_of_ne _ _ _ _ (Ne.symm hsrc)]
    exact setColumn_cols_contains_self _ _ _

/-- On success, `create_sales_df` returns the dimension frames produced by the
two side-effect pipelines, and every side-effect warning is logged. -/
theorem create_sales_df_ok_parts (df custDf prodDf : DFrame) (n : ℕ)
    (res : SalesResult)
    (h : create_sales_df df custDf prodDf n = .ok res) :
    res.productDf = (productSideEffect prodDf).1 ∧
    res.customerDf = (customerSideEffect custDf).1 ∧
    (∀ w ∈ (productSideEffect prodDf).2, w ∈ res.warnings) ∧
    (∀ w ∈ (customerSideEffect custDf).2, w ∈ res.warnings) := by
  unfold create_sales_df at h
  cases hf : requiredColumns.find? (fun c => (df.cols.contains c) = false) with
  | some c =>
    rw [hf] at h
    cases h
  | none =>
    rw [hf] at h
    have h2 := (Except.ok.inj h).symm
    subst h2
    refine ⟨rfl, rfl, ?_, ?_⟩
    · intro w hw
      simp only [List.mem_append]
      exact Or.inl (Or.inr hw)
    · intro w hw
      simp only [List.mem_append]
      exact Or.inr hw

/-- Claim C9 (counterexample): `create_sales_df` does mutate the dimension
frames passed to it — on the sample batch, the product and customer frames
after the call differ from the frames passed in (they gained `merge_key` and
split columns and lost the composite `product`/`name` columns). -/
theorem create_sales_df_mutation_counterexample :
    create_sales_df sampleDf sampleCust sampleProd 0 = .ok sampleRes ∧
    sampleRes.productDf ≠ sampleProd ∧
    sampleRes.customerDf ≠ sampleCust :=
  ⟨by decide, by decide, by decide⟩

/-- Claim C9 (amended): `create_sales_df` borrows only the batch frame
read-only; it mutates both dimension frames passed to it — on every
successful call the returned product frame carries `merge_key` and has lost
`product`, and the returned customer frame carries `merge_key` and has lost
`name`. -/
theorem create_sales_df_mutates_dimensions (df custDf prodDf : DFrame)
    (n : ℕ) (res : SalesResult)
    (h : create_sales_df df custDf prodDf n = .ok res) :
    res.productDf.cols.contains "merge_key" = true ∧
    res.productDf.cols.contains "product" = false ∧
    res.customerDf.cols.contains "merge_key" = true ∧
    res.customerDf.cols.contains "name" = false := by
  obtain ⟨hp, hc, -, -⟩ := create_sales_df_ok_parts df custDf prodDf n res h
  rw [hp, hc]
  unfold productSideEffect customerSideEffect
  exact ⟨splitSideEffect_merge_key _ _ _ _ _ _ _ (by decide),
    splitSideEffect_drops_src _ _ _ _ _ _ _,
    splitSideEffect_merge_key _ _ _ _ _ _ _ (by decide),
    splitSideEffect_drops_src _ _ _ _ _ _ _⟩

/-- Witness for the amended C9 theorem on the sample batch. -/
theorem create_sales_df_mutates_dimensions_witness :
    sampleRes.productDf.cols.contains "merge_key" = true ∧
    sampleRes.productDf.cols.contains "product" = false ∧
    sampleRes.customerDf.cols.contains "merge_key" = true ∧
    sampleRes.customerDf.cols.contains "name" = false :=
  create_sales_df_mutates_dimensions sampleDf sampleCust sampleProd 0
    sampleRes (by decide)

theorem partsWidth_of_all_two (dIn : DFrame) (sc sp : String)
    (hne : dIn.rows ≠ [])
    (hall : ∀ r ∈ dIn.rows, (colParts sc sp r).length = 2) :
    partsWidth dIn sc sp = 2 := by
  unfold partsWidth
  apply foldr_max_of_all_eq_two
  · simp [hne]
  · intro x hx
    rcases List.mem_map.mp hx with ⟨r, hr, hxe⟩
    rw [← hxe]
    exact hall r hr

/-- Claim C5: on every successful `create_sales_df` call, the composite
`product` and `name` columns are dropped from the dimension frames; when the
product values of the batch (spaces rewritten to underscores) all split on
the pipe delimiter into exactly two parts, the expand width is 2 and the
product frame gains `product_category` and `product_detail` holding the two
parts of each row; when the width is not 2, the warning naming the width is
logged and the split columns stay unset — and no error is raised either way
(the call already returned `.ok`).  The same holds for the customer name and
the double-slash delimiter with `first_name`/`last_name`. -/
theorem create_sales_df_split_spec (df custDf prodDf : DFrame) (n : ℕ)
    (res : SalesResult)
    (h : create_sales_df df custDf prodDf n = .ok res) :
    (res.productDf.cols.contains "product" = false ∧
     res.customerDf.cols.contains "name" = false) ∧
    ((prodDf.rows ≠ [] ∧
        ∀ r ∈ prodDf.rows, (colParts "product" "|" r).length = 2) →
      partsWidth prodDf "product" "|" = 2) ∧
    (partsWidth prodDf "product" "|" = 2 →
      res.productDf.cols.contains "product_category" = true ∧
      res.productDf.cols.contains "product_detail" = true ∧
      res.productDf.rows.map
          (fun r => (Row.get r "product_category", Row.get r "product_detail"))
        = prodDf.rows.map (fun r => ((colParts "product" "|" r).getD 0 "",
            (colParts "product" "|" r).getD 1 ""))) ∧
    (partsWidth prodDf "product" "|" ≠ 2 →
      ("Unexpected number of columns when splitting product. Found: "
          ++ toString (partsWidth prodDf "product" "|")) ∈ res.warnings ∧
      (prodDf.cols.contains "product_category" = false →
        res.productDf.cols.contains "product_category" = false)) ∧
    ((custDf.rows ≠ [] ∧
        ∀ r ∈ custDf.rows, (colParts "name" "//" r).length = 2) →
      partsWidth custDf "name" "//" = 2) ∧
    (partsWidth custDf "name" "//" = 2 →
      res.customerDf.cols.contains "first_name" = true ∧
      res.customerDf.cols.contains "last_name" = true ∧
      res.customerDf.rows.map
          (fun r => (Row.get r "first_name", Row.get r "last_name"))
        = custDf.rows.map (fun r => ((colParts "name" "//" r).getD 0 "",
            (colParts "name" "//" r).getD 1 ""))) ∧
    (partsWidth custDf "name" "//" ≠ 2 →
      ("Unexpected number of columns when splitting name. Found: "
          ++ toString (partsWidth custDf "name" "//")) ∈ res.warnings ∧
      (custDf.cols.contains "first_name" = false →
        res.customerDf.cols.contains "first_name" = false)) := by
  obtain ⟨hp, hc, hwp, hwc⟩ := create_sales_df_ok_parts df custDf prodDf n res h
  refine ⟨⟨?_, ?_⟩, ?_, ?_, ?_, ?_, ?_, ?_⟩
  · rw [hp]
    exact splitSideEffect_drops_src _ _ _ _ _ _ _
  · rw [hc]
    exact splitSideEffect_drops_src _ _ _ _ _ _ _
  · intro hcond
    exact partsWidth_of_all_two prodDf "product" "|" hcond.1 hcond.2
  · intro hw2
    have hpos := splitSideEffect_pos prodDf productMergeKey "product" "|"
      "product_category" "product_detail"
      "Unexpected number of columns when splitting product. Found: "
      (by decide) (by decide) (by decide) (by decide) hw2
    rw [hp]
    exact ⟨hpos.2.1, hpos.2.2.1, hpos.2.2.2⟩
  · intro hwne
    have hneg := splitSideEffect_neg prodDf productMergeKey "product" "|"
      "product_category" "product_detail"
      "Unexpected number of columns when splitting product. Found: "
      (by decide) hwne
    constructor
    · apply hwp
      rw [show (productSideEffect prodDf).2
          = (splitSideEffect prodDf productMergeKey "product" "|"
              "product_category" "product_detail"
              "Unexpected number of columns when splitting product. Found: ").2
          from rfl, hneg.1]
      exact List.mem_singleton_self _
    · intro hin
      rw [hp]
      rw [show (productSideEffect prodDf).1
          = (splitSideEffect prodDf productMergeKey "product" "|"
              "product_category" "product_detail"
              "Unexpected number of columns when splitting product. Found: ").1
          from rfl, hneg.2 "product_category" (by decide) (by decide)]
      exact hin
  · intro hcond
    exact partsWidth_of_all_two custDf "name" "//" hcond.1 hcond.2
  · intro hw2
    have hpos := splitSideEffect_pos custDf customerMergeKey "name" "//"
      "first_name" "last_name"
      "Unexpected number of columns when splitting name. Found: "
      (by decide) (by decide) (by decide) (by decide) hw2
    rw [hc]
    exact ⟨hpos.2.1, hpos.2.2.1, hpos.2.2.2⟩
  · intro hwne
    have hneg := splitSideEffect_neg custDf customerMergeKey "name" "//"
      "first_name" "last_name"
      "Unexpected number of columns when splitting name. Found: "
      (by decide) hwne
    constructor
    · apply hwc
      rw [show (customerSideEffect custDf).2
          = (splitSideEffect custDf customerMergeKey "name" "//"
              "first_name" "last_name"
              "Unexpected number of columns when splitting name. Found: ").2
          from rfl, hneg.1]
      exact List.mem_singleton_self _
    · intro hin
      rw [hc]
      rw [show (customerSideEffect custDf).1
          = (splitSideEffect custDf customerMergeKey "name" "//"
              "first_name" "last_name"
              "Unexpected number of columns when splitting name. Found: ").1
          from rfl, hneg.2 "first_name" (by decide) (by decide)]
      exact hin

/-- Witness for C5 on the sample batch: splitting the product text
`AUTO|COLLISION` yields category `AUTO` and detail `COLLISION` (and the
second product row splits to `HOME`/`FIRE`); the name `JOHN//DOE` splits to
`JOHN`/`DOE`; the composite columns are gone. -/
theorem create_sales_df_split_spec_witness :
    sampleRes.productDf.cols.contains "product" = false ∧
    sampleRes.productDf.rows.map
        (fun r => (Row.get r "product_category", Row.get r "product_detail"))
      = [("AUTO", "COLLISION"), ("HOME", "FIRE")] ∧
    sampleRes.customerDf.rows.map
        (fun r => (Row.get r "first_name", Row.get r "last_name"))
      = [("JOHN", "DOE")] := by
  have h := create_sales_df_split_spec sampleDf sampleCust sampleProd 0
    sampleRes (by decide)
  have hpw : partsWidth sampleProd "product" "|" = 2 :=
    h.2.1 ⟨by decide, by decide⟩
  have hcw : partsWidth sampleCust "name" "//" = 2 :=
    h.2.2.2.2.1 ⟨by decide, by decide⟩
  exact ⟨h.1.1, ((h.2.2.1 hpw).2.2).trans (by decide),
    ((h.2.2.2.2.2.1 hcw).2.2).trans (by decide)⟩

theorem compositeKeyColumns_no_composite (t : String) (kcols : List String)
    (hk : compositeKeyColumns t = some kcols) :
    kcols.contains "composite_key" = false := by
  unfold compositeKeyColumns at hk
  split_ifs at hk
  · injection hk with h
    subst h
    decide
  · injection hk with h
    subst h
    decide
  · injection hk with h
    subst h
    decide

theorem joinKey_drop_set (kcols : List String) (r : Row) (v : String)
    (hck : kcols.contains "composite_key" = false) :
    joinKey kcols (Row.drop (Row.set r "composite_key" v) "composite_key")
      = joinKey kcols r := by
  unfold joinKey
  congr 1
  apply List.map_congr_left
  intro c hc
  have hne : c ≠ "composite_key" := by
    intro he
    rw [scontains_eq_false_iff] at hck
    exact hck (he ▸ hc)
  rw [Row.get_drop_ne _ _ _ hne, Row.get_set_ne _ _ _ _ hne]

theorem addCompositeKey_rows (df : DFrame) (kcols : List String) :
    (addCompositeKey df kcols).rows
      = df.rows.map (fun r => Row.set r "composite_key" (joinKey kcols r)) :=
  rfl

theorem filter_all_existing (df : DFrame) (kcols : List String)
    (existing : List String)
    (hcover : ∀ r ∈ df.rows, joinKey kcols r ∈ existing) :
    (addCompositeKey df kcols).rows.filter
      (fun r => (existing.contains (Row.get r "composite_key")) = false)
      = [] := by
  rw [List.filter_eq_nil_iff]
  intro r hr
  rw [addCompositeKey_rows] at hr
  rcases List.mem_map.mp hr with ⟨r0, hr0, hre⟩
  subst hre
  have hcon : existing.contains (joinKey kcols r0) = true :=
    (scontains_iff_mem _ _).mpr (hcover r0 hr0)
  simp only [decide_eq_true_eq, Row.get_set_self, hcon]
  simp

/-- A run of `upload_data` whose candidate keys are all already present in
the target table returns the store untouched and logs the no-new-rows
line; the caller's frame comes back with the composite-key mutation. -/
theorem upload_data_second_run (df : DFrame) (st1 : Store)
    (tableName : String) (kcols : List String) (tdf2 : DFrame)
    (hk : compositeKeyColumns tableName = some kcols)
    (halk2 : alookup st1 tableName = some tdf2)
    (hc2 : kcols.all (fun c => tdf2.cols.contains c) = true)
    (hdf : kcols.all (fun c => df.cols.contains c) = true)
    (hcover : ∀ r ∈ df.rows,
      joinKey kcols r ∈ tdf2.rows.map (fun r => joinKey kcols r)) :
    upload_data df st1 tableName
      = .ok (st1, ["No new rows to upload."], addCompositeKey df kcols) := by
  have hf := filter_existing_data_some_eq df st1 tableName tdf2 kcols halk2 hk
  rw [if_neg (by rw [hc2]; simp), if_neg (by rw [hdf]; simp)] at hf
  have hker := filter_all_existing df kcols
    (tdf2.rows.map (fun r => joinKey kcols r)) hcover
  rw [hker] at hf
  rw [upload_data_eq df st1 tableName _ _ hf]
  rfl

theorem ok_triple_inj {A B C : Type} {a a' : A} {b b' : B} {c c' : C}
    (h : (Except.ok (a, b, c) : Except String (A × B × C))
      = .ok (a', b', c')) : a = a' ∧ b = b' ∧ c = c' := by
  have h2 := Except.ok.inj h
  injection h2 with h3 h4
  injection h4 with h5 h6
  exact ⟨h3, h5, h6⟩

/-- Claim C2: the Incremental Loader is idempotent.  For any candidate frame
carrying the business-key columns of its target table (and a store whose
existing table carries them too), running `upload_data` and then running it
again with the same candidate against the resulting store uploads nothing
the second time: every candidate row's dash-joined composite key is by then
among the store's existing keys, so the whole batch is filtered out before
the append and the store is returned unchanged with the no-new-rows log. -/
theorem upload_data_idempotent (df : DFrame) (store : Store)
    (tableName : String) (kcols : List String)
    (hk : compositeKeyColumns tableName = some kcols)
    (hdf : kcols.all (fun c => df.cols.contains c) = true)
    (hstore : ∀ tdf, alookup store tableName = some tdf →
      kcols.all (fun c => tdf.cols.contains c) = true)
    (st1 : Store) (log1 : List String) (dfA : DFrame)
    (h1 : upload_data df store tableName = .ok (st1, log1, dfA)) :
    ∃ dfA2, upload_data df st1 tableName
      = .ok (st1, ["No new rows to upload."], dfA2) := by
  have hck := compositeKeyColumns_no_composite tableName kcols hk
  cases halk : alookup store tableName with
  | none =>
    have hf := filter_existing_data_none_eq df store tableName halk
    rw [upload_data_eq df store tableName df df hf] at h1
    by_cases hemp : df.rows.isEmpty = true
    · rw [if_pos hemp] at h1
      obtain ⟨hst, -, -⟩ := ok_triple_inj h1
      subst hst
      exact ⟨df, by rw [upload_data_eq df store tableName df df hf,
        if_pos hemp]⟩
    · rw [if_neg hemp] at h1
      obtain ⟨hst, -, -⟩ := ok_triple_inj h1
      subst hst
      have halk2 : alookup (appendTable store tableName df) tableName
          = some df := by
        unfold appendTable
        rw [halk]
        apply alookup_append_single_self
        rw [ahas_eq_isSome, halk]
        rfl
      exact ⟨addCompositeKey df kcols,
        upload_data_second_run df _ tableName kcols df hk halk2 hdf hdf
          (fun r hr => List.mem_map_of_mem _ hr)⟩
  | some tdf =>
    have hc1 := hstore tdf halk
    have hf := filter_existing_data_some_eq df store tableName tdf kcols
      halk hk
    rw [if_neg (by rw [hc1]; simp), if_neg (by rw [hdf]; simp)] at hf
    rw [upload_data_eq df store tableName _ _ hf] at h1
    by_cases hemp : (dropColF
        { cols := (addCompositeKey df kcols).cols,
          rows := (addCompositeKey df kcols).rows.filter
            (fun r =>
              ((tdf.rows.map (fun r => joinKey kcols r)).contains
                (Row.get r "composite_key")) = false) }
        "composite_key").rows.isEmpty = true
    · rw [if_pos hemp] at h1
      obtain ⟨hst, -, -⟩ := ok_triple_inj h1
      subst hst
      exact ⟨addCompositeKey df kcols,
        by rw [upload_data_eq df store tableName _ _ hf, if_pos hemp]⟩
    · rw [if_neg hemp] at h1
      obtain ⟨hst, -, -⟩ := ok_triple_inj h1
      subst hst
      have halk2 : alookup (appendTable store tableName (dropColF
              { cols := (addCompositeKey df kcols).cols,
                rows := (addCompositeKey df kcols).rows.filter
                  (fun r =>
                    ((tdf.rows.map (fun r => joinKey kcols r)).contains
                      (Row.get r "composite_key")) = false) }
              "composite_key")) tableName
          = some { cols := tdf.cols,
                   rows := tdf.rows ++ (dropColF
                     { cols := (addCompositeKey df kcols).cols,
                       rows := (addCompositeKey df kcols).rows.filter
                         (fun r =>
                           ((tdf.rows.map (fun r => joinKey kcols r)).contains
                             (Row.get r "composite_key")) = false) }
                     "composite_key").rows } := by
        unfold appendTable
        rw [halk]
        exact alookup_aset_self store tableName _
      refine ⟨addCompositeKey df kcols,
        upload_data_second_run df _ tableName kcols _ hk halk2 hc1 hdf
          ?_⟩
      intro r hr
      rw [List.map_append]
      by_cases hmem : joinKey kcols r ∈ tdf.rows.map (fun r => joinKey kcols r)
      · exact List.mem_append_left _ hmem
      · apply List.mem_append_right
        rw [dropColF_rows]
        rw [List.map_map]
        apply List.mem_map.mpr
        refine ⟨Row.set r "composite_key" (joinKey kcols r), ?_, ?_⟩
        · apply List.mem_filter.mpr
          constructor
          · rw [addCompositeKey_rows]
            exact List.mem_map_of_mem _ hr
          · have hcon : (tdf.rows.map (fun r => joinKey kcols r)).contains
                (Row.get (Row.set r "composite_key" (joinKey kcols r))
                  "composite_key") = false := by
              rw [Row.get_set_self, scontains_eq_false_iff]
              exact hmem
            simp only [decide_eq_true_eq]
            exact hcon
        · simp only [Function.comp_apply]
          exact joinKey_drop_set kcols r _ hck


/-- Witness for C2: uploading the sample customer dimension into an empty
store and then uploading the same candidate again against the resulting
store yields zero new rows the second time. -/
theorem upload_data_idempotent_witness :
    ∃ dfA2, upload_data sampleRes.customerDf c6Store "dim_customer"
      = .ok (c6Store, ["No new rows to upload."], dfA2) :=
  upload_data_idempotent sampleRes.customerDf [] "dim_customer" ["merge_key"]
    rfl (by decide) (fun _ h => nomatch h) c6Store
    ["1 new rows uploaded successfully."] sampleRes.customerDf (by decide)

end Allianz
